import Mathlib

/-!
Shallow embedding of the MIDI-RGB-Lighting core engine
(src/LightEngineDLL/src/LightEngine.cpp together with the class header
src/libraries/LightEngine/src/LightEngine.h), with theorems checking the
specification claims about it.

Modelling conventions:
* C `int` arithmetic is modelled on `Int` where a value can be negative,
  and on `Nat` where every operand is provably non-negative (there the two
  agree).  C division and remainder truncate toward zero, which is
  `Int.tdiv` / `Int.tmod` (written `cdiv` / `cmod` below), not Lean's
  Euclidean `/` / `%` on `Int`.
* `uint8_t` stores truncate modulo 256 (`toByte`).
* The LED buffer is a total function `Nat → HSV`; `setLED` reproduces the
  source bounds guard, so out-of-range writes leave the buffer unchanged.
* The member `lineOffset` is written before every read in each mode that
  uses it, so it is modelled as a local let-binding, not engine state.
* Every `for` loop is modelled as a fold over the list of writes the loop
  issues, in loop order (last write wins, as in the imperative code).
-/

/-- C truncating division (rounds toward zero), as used by C `int` `/`. -/
def cdiv (a b : Int) : Int := Int.tdiv a b

/-- C truncating remainder, as used by C `int` `%`. -/
def cmod (a b : Int) : Int := Int.tmod a b

/-- Conversion of a C `int` value to `uint8_t` (reduction modulo 256). -/
def toByte (x : Int) : Nat := (x.emod 256).toNat

/-- HSV color triple of `uint8_t` channels, as stored in the LED buffer. -/
structure HSV where
  h : Nat
  s : Nat
  v : Nat
deriving DecidableEq

/-- LED buffer, indexed by LED position. -/
def Buffer : Type := Nat → HSV

/-- Sine lookup table `LightEngine::COLOR_PHASE` (64 entries, range −100..100). -/
def COLOR_PHASE : List Int :=
  [10, 20, 29, 38, 47, 56, 63, 71, 77, 83, 88, 92, 96, 98, 100, 100,
   100, 98, 96, 92, 88, 83, 77, 71, 63, 56, 47, 38, 29, 20, 10, 0,
   -10, -20, -29, -38, -47, -56, -63, -71, -77, -83, -88, -92, -96, -98, -100, -100,
   -100, -98, -96, -92, -88, -83, -77, -71, -63, -56, -47, -38, -29, -20, -10, 0]

/-- Mirror table `LightEngine::TOP_BOTTOM_MIRROR_MAP` (48 entries). -/
def TOP_BOTTOM_MIRROR_MAP : List Nat :=
  [23, 22, 21, 20, 19, 18, 17, 16, 15, 14, 13, 12, 11, 10, 9, 8, 7, 6, 5, 4, 3, 2, 1, 0,
   95, 94, 93, 92, 91, 90, 89, 88, 87, 86, 85, 84, 83, 82, 81, 80, 79, 78, 77, 76, 75, 74, 73, 72]

/-- Lookup in the mirror table; indices outside [0,48) never occur in the
engine (every access is guarded), the default 0 is only to totalize. -/
def mirror (j : Nat) : Nat := TOP_BOTTOM_MIRROR_MAP.getD j 0

/-- Channel-to-LED table `LightEngine::CHANNEL_TO_LED` (17 rows of 6). -/
def CHANNEL_TO_LED : List (List Nat) :=
  [[0, 0, 0, 0, 0, 0],
   [19, 20, 21, 22, 23, 24],
   [29, 30, 31, 32, 33, 34],
   [13, 14, 15, 16, 17, 18],
   [35, 36, 37, 38, 39, 40],
   [7, 8, 9, 10, 11, 12],
   [41, 42, 43, 44, 45, 46],
   [1, 2, 3, 4, 5, 6],
   [47, 48, 49, 50, 51, 52],
   [73, 74, 75, 76, 77, 78],
   [83, 84, 85, 86, 87, 88],
   [67, 68, 69, 70, 71, 72],
   [89, 90, 91, 92, 93, 94],
   [61, 62, 63, 64, 65, 66],
   [95, 96, 97, 98, 99, 100],
   [55, 56, 57, 58, 59, 60],
   [101, 102, 103, 104, 105, 106]]

/-- Lookup in the channel table (row `ch`, column `i`). -/
def channelLed (ch i : Nat) : Nat := (CHANNEL_TO_LED.getD ch []).getD i 0

/-- Mutable members of `LightEngine` that carry state across calls.
`numLeds` is the construction parameter, `activeNotes` has 128 entries,
`currentNote` has 17 entries. -/
structure EngineState where
  numLeds : Nat
  ffHue : Nat
  ffSat : Nat
  ffBright : Nat
  ffLedStart : Nat
  ffLedLength : Nat
  ffMode : Nat
  lines : Nat
  cAmp : Nat
  bgMode : Nat
  pan : Nat
  bgHue : Nat
  bgSat : Nat
  bgBright : Nat
  bgLedStart : Nat
  bgLedLength : Nat
  activeNotes : List Nat
  currentNote : List Nat
  frameCounter : Nat
deriving DecidableEq

/-- Constructor defaults of `LightEngine::LightEngine(int numLeds)`. -/
def initEngine (numLeds : Nat) : EngineState where
  numLeds := numLeds
  ffHue := 0
  ffSat := 200
  ffBright := 200
  ffLedStart := 0
  ffLedLength := 0
  ffMode := 0
  lines := 0
  cAmp := 0
  bgMode := 0
  pan := 64
  bgHue := 0
  bgSat := 200
  bgBright := 0
  bgLedStart := 0
  bgLedLength := 0
  activeNotes := List.replicate 128 0
  currentNote := List.replicate 17 0
  frameCounter := 0

/-- Body of `LightEngine::handleControlChange` (the `switch (control)`).
Parameters are MIDI data bytes, already in `uint8_t` range at the C call
boundary. -/
def handleControlChange (st : EngineState) (channel control value : Nat) : EngineState :=
  if control = 1 then { st with ffHue := value * 2 }
  else if control = 2 then { st with ffSat := value * 2 }
  else if control = 3 then { st with ffBright := value * 2 }
  else if control = 4 then { st with ffLedStart := value }
  else if control = 5 then { st with ffLedLength := value }
  else if control = 6 then { st with ffMode := value }
  else if control = 7 then { st with lines := value }
  else if control = 8 then { st with cAmp := value }
  else if control = 9 then { st with bgMode := value }
  else if control = 10 then { st with pan := value }
  else if control = 11 then { st with bgHue := value * 2 }
  else if control = 12 then { st with bgSat := value * 2 }
  else if control = 13 then { st with bgBright := value * 2 }
  else if control = 14 then { st with bgLedStart := value }
  else if control = 15 then { st with bgLedLength := value }
  else st

/-- Body of `LightEngine::handleNoteOn`: store `activeNotes[note] = velocity`
when `note < 128`, store `currentNote[channel] = note` when the channel is in
1..16, and in foreground mode 5 advance `ffLedStart` by 1, resetting to 0 once
it reaches 127. -/
def handleNoteOn (st : EngineState) (channel note velocity : Nat) : EngineState :=
  let st1 := if note < 128 then { st with activeNotes := st.activeNotes.set note velocity } else st
  let st2 := if 1 ≤ channel ∧ channel ≤ 16 then
    { st1 with currentNote := st1.currentNote.set channel note } else st1
  if st2.ffMode = 5 then
    { st2 with ffLedStart := if 127 ≤ st2.ffLedStart + 1 then 0 else st2.ffLedStart + 1 }
  else st2

/-- Body of `LightEngine::handleNoteOff`: clear `activeNotes[note]`, and clear
`currentNote[channel]` only when it currently equals `note`. -/
def handleNoteOff (st : EngineState) (channel note velocity : Nat) : EngineState :=
  let st1 := if note < 128 then { st with activeNotes := st.activeNotes.set note 0 } else st
  if 1 ≤ channel ∧ channel ≤ 16 then
    if st1.currentNote.getD channel 0 = note then
      { st1 with currentNote := st1.currentNote.set channel 0 }
    else st1
  else st1

/-- Body of `LightEngine::getCC` (the `switch (ccNumber)`, default 0). -/
def getCC (st : EngineState) (ccNumber : Nat) : Nat :=
  if ccNumber = 1 then st.ffHue / 2
  else if ccNumber = 2 then st.ffSat / 2
  else if ccNumber = 3 then st.ffBright / 2
  else if ccNumber = 4 then st.ffLedStart
  else if ccNumber = 5 then st.ffLedLength
  else if ccNumber = 6 then st.ffMode
  else if ccNumber = 7 then st.lines
  else if ccNumber = 8 then st.cAmp
  else if ccNumber = 9 then st.bgMode
  else if ccNumber = 10 then st.pan
  else if ccNumber = 11 then st.bgHue / 2
  else if ccNumber = 12 then st.bgSat / 2
  else if ccNumber = 13 then st.bgBright / 2
  else if ccNumber = 14 then st.bgLedStart
  else if ccNumber = 15 then st.bgLedLength
  else 0

/-- Body of `LightEngine::setCC`: route through `handleControlChange` with
channel 0. -/
def setCC (st : EngineState) (ccNumber value : Nat) : EngineState :=
  handleControlChange st 0 ccNumber value

/-- One pending LED write: index (C `int`) and the three `uint8_t` channel
arguments as the C `int` expressions passed at the call site. -/
abbrev Write := Int × Int × Int × Int

/-- Body of `LightEngine::setLED`: bounds-guarded store into the buffer. -/
def setLED (numLeds : Nat) (b : Buffer) (index : Int) (h s v : Int) : Buffer :=
  if 0 ≤ index ∧ index < (numLeds : Int) then
    fun j => if (j : Int) = index then ⟨toByte h, toByte s, toByte v⟩ else b j
  else b

/-- Apply a loop's `setLED` calls in program order.  Each mode below is a
function of exactly the data members its C body reads. -/
def applyWrites (numLeds : Nat) (b : Buffer) (ws : List Write) : Buffer :=
  ws.foldl (fun acc w => setLED numLeds acc w.1 w.2.1 w.2.2.1 w.2.2.2) b

/-- Body of `LightEngine::renderFlatBackground` (value of every filled cell). -/
def renderFlatBackground (bgHue bgSat bgBright : Nat) : Nat → HSV :=
  fun _ => ⟨toByte bgHue, toByte bgSat, toByte bgBright⟩

/-- Body of `LightEngine::renderRainbowBackground`. -/
def renderRainbowBackground (numLeds bgHue bgSat bgBright : Nat) : Nat → HSV :=
  let rainbowInc := 255 / numLeds
  fun (i : Nat) => ⟨(bgHue + i * rainbowInc) % 256, toByte bgSat, toByte bgBright⟩

/-- Hue formula shared by the background and foreground color sinusoids:
`(256 + hue + cAmp * COLOR_PHASE[((i + start) * 64 / len) % 64] / 100) % 256`
in C `int` arithmetic (division and remainder truncate toward zero). -/
def sinusoidHue (hue camp start len i : Nat) : Int :=
  let cphaseIdx := ((i + start) * 64 / len) % 64
  cmod (256 + (hue : Int) + cdiv ((camp : Int) * COLOR_PHASE.getD cphaseIdx 0) 100) 256

/-- Body of `LightEngine::renderSinusoidBackground` (falls back to the flat
fill when `bgLedLength == 0`). -/
def renderSinusoidBackground (bgLedStart bgLedLength cAmp bgHue bgSat bgBright : Nat) :
    Nat → HSV :=
  if bgLedLength = 0 then renderFlatBackground bgHue bgSat bgBright
  else fun (i : Nat) =>
    ⟨toByte (sinusoidHue bgHue cAmp bgLedStart bgLedLength i), toByte bgSat, toByte bgBright⟩

/-- Dispatch of `LightEngine::updateBackground` (default falls back to flat). -/
def bgFill (numLeds bgMode bgLedStart bgLedLength cAmp bgHue bgSat bgBright : Nat) : Nat → HSV :=
  if bgMode = 0 then renderFlatBackground bgHue bgSat bgBright
  else if bgMode = 1 then renderRainbowBackground numLeds bgHue bgSat bgBright
  else if bgMode = 2 then renderSinusoidBackground bgLedStart bgLedLength cAmp bgHue bgSat bgBright
  else renderFlatBackground bgHue bgSat bgBright

/-- The `memcpy(leds, background, numLeds * sizeof(HSVColor))` step: the first
`numLeds` cells come from the background layer, anything beyond is untouched. -/
def memcpyBg (numLeds : Nat) (bg : Nat → HSV) (b : Buffer) : Buffer :=
  fun i => if i < numLeds then bg i else b i

/-- Writes issued by `LightEngine::renderNotesToDrives`. -/
def notesToDrivesWrites (currentNote : List Nat) (ffHue ffSat ffBright : Nat) : List Write :=
  (List.range 16).flatMap (fun (k : Nat) =>
    let ch := k + 1
    if currentNote.getD ch 0 ≠ 0 then
      (List.range 6).map (fun (i : Nat) =>
        ((channelLed ch i : Int), (ffHue : Int), (ffSat : Int), (ffBright : Int)))
    else
      (List.range 6).map (fun (i : Nat) =>
        if i % 2 = 0 then ((channelLed ch i : Int), 80, 200, (ffBright : Int))
        else ((channelLed ch i : Int), 100, 200, (ffBright : Int))))

/-- Writes issued by `LightEngine::renderRainbowWheel`. -/
def rainbowWheelWrites (numLeds ffHue ffSat ffBright : Nat) : List Write :=
  let rainbowInc := 255 / numLeds
  (List.range numLeds).map (fun (i : Nat) =>
    ((i : Int), (((ffHue + i * rainbowInc) % 256 : Nat) : Int), (ffSat : Int), (ffBright : Int)))

/-- Writes issued by `LightEngine::renderMovingDots` (no-op when `lines == 0`;
the loop variable `led` runs from `ffLedStart` for `ffLedLength` steps). -/
def movingDotsWrites (numLeds ffLedStart ffLedLength lines ffHue ffSat ffBright : Nat) :
    List Write :=
  if lines = 0 then []
  else
    let lineOffset := numLeds / lines
    (List.range lines).flatMap (fun (line : Nat) =>
      (List.range ffLedLength).map (fun (k : Nat) =>
        ((((ffLedStart + k + line * lineOffset) % numLeds : Nat) : Int),
         (ffHue : Int), (ffSat : Int), (ffBright : Int))))

/-- Writes issued by `LightEngine::renderComets`: `count` starts at
`ffLedLength - 1` and decrements, so position `k` of a line gets brightness
`ffBright * (k + 1) / ffLedLength`. -/
def cometsWrites (numLeds ffLedStart ffLedLength lines ffHue ffSat ffBright : Nat) :
    List Write :=
  if lines = 0 ∨ ffLedLength = 0 then []
  else
    let lineOffset := numLeds / lines
    (List.range lines).flatMap (fun (line : Nat) =>
      (List.range ffLedLength).map (fun (k : Nat) =>
        ((((ffLedStart + k + line * lineOffset) % numLeds : Nat) : Int),
         (ffHue : Int), (ffSat : Int),
         ((ffBright * (k + 1) / ffLedLength : Nat) : Int))))

/-- Writes issued by `LightEngine::renderBackAndForth`: blocks start at
`0, 2*ffLedLength, …` while below `numLeds`. -/
def backAndForthWrites (numLeds ffLedStart ffLedLength ffHue ffSat ffBright : Nat) :
    List Write :=
  if ffLedLength = 0 then []
  else
    let step := 2 * ffLedLength
    ((List.range ((numLeds + step - 1) / step)).map (· * step)).flatMap (fun (block : Nat) =>
      (List.range ffLedLength).map (fun (led : Nat) =>
        ((((ffLedStart * ffLedLength + block + led) % numLeds : Nat) : Int),
         (ffHue : Int), (ffSat : Int), (ffBright : Int))))

/-- Writes issued by `LightEngine::renderMoveStartLED` (moving-dots geometry,
hue modulated by the absolute `led` position). -/
def moveStartLEDWrites (numLeds ffLedStart ffLedLength lines ffHue ffSat ffBright : Nat) :
    List Write :=
  if lines = 0 then []
  else
    let lineOffset := numLeds / lines
    let rainbowInc := 255 / numLeds
    (List.range lines).flatMap (fun (line : Nat) =>
      (List.range ffLedLength).map (fun (k : Nat) =>
        ((((ffLedStart + k + line * lineOffset) % numLeds : Nat) : Int),
         (((ffHue + (ffLedStart + k) * rainbowInc) % 256 : Nat) : Int),
         (ffSat : Int), (ffBright : Int))))

/-- Writes issued by `LightEngine::renderColorSinusoid` (no-op when
`ffLedLength == 0`). -/
def colorSinusoidWrites (numLeds ffLedStart ffLedLength cAmp ffHue ffSat ffBright : Nat) :
    List Write :=
  if ffLedLength = 0 then []
  else (List.range numLeds).map (fun (i : Nat) =>
    ((i : Int), sinusoidHue ffHue cAmp ffLedStart ffLedLength i, (ffSat : Int), (ffBright : Int)))

/-- Modelled from the spec: Flash reseeds the platform pseudo-random source
from the frame counter and draws one LED index (`srand(frameCounter)` then
`rand() % numLeds` on the desktop target, `randomSeed`/`random` on Arduino).
The generator itself is C-library code not in this repository; the spec only
requires a fixed, seed-reproducible stream, modelled here as one
linear-congruential step of the seed. -/
def randLED (seed numLeds : Nat) : Nat :=
  (seed * 1103515245 + 12345) / 65536 % 32768 % numLeds

/-- Writes issued by `LightEngine::renderFlashLights`. -/
def flashWrites (numLeds frameCounter ffHue ffSat ffBright : Nat) : List Write :=
  [((randLED frameCounter numLeds : Int), (ffHue : Int), (ffSat : Int), (ffBright : Int))]

/-- Wave center of `renderOceanWaves` / `renderOpposingWaves`:
`(numLeds / 2 - 1) * pan / 127 + numLeds / 4` in C `int` arithmetic. -/
def oceanTMiddle (numLeds pan : Nat) : Int :=
  cdiv ((cdiv numLeds 2 - 1) * pan) 127 + cdiv numLeds 4

/-- Amplitude clamp of `renderOceanWaves`. -/
def oceanAmp (tMiddle amp0 : Int) : Int :=
  if tMiddle - amp0 ≤ 24 then tMiddle - 24
  else if 71 < tMiddle + amp0 then 71 - tMiddle
  else amp0

/-- Amplitude clamp of `renderOpposingWaves` (first branch yields
`tMiddle - 23`, one more than ocean waves). -/
def opposingAmp (tMiddle amp0 : Int) : Int :=
  if tMiddle - amp0 ≤ 24 then tMiddle - 23
  else if 71 < tMiddle + amp0 then 71 - tMiddle
  else amp0

/-- Writes issued by `LightEngine::renderOceanWaves`: for `0 ≤ p < amp`,
paint `tMiddle ± p` and, when the source lands in the table window, the
mirrored bottom-strip LED. -/
def oceanWaveWrites (numLeds pan ffLedLength ffHue ffSat ffBright : Nat) : List Write :=
  let tMiddle := oceanTMiddle numLeds pan
  let amp := oceanAmp tMiddle ((ffLedLength / 2 : Nat) : Int)
  if amp ≤ 0 then []
  else (List.range amp.toNat).flatMap (fun (p : Nat) =>
    let brightness := cdiv ((ffBright : Int) * (amp - p)) amp
    [(tMiddle + p, (ffHue : Int), (ffSat : Int), brightness),
     (tMiddle - p, (ffHue : Int), (ffSat : Int), brightness)] ++
    (if 0 ≤ tMiddle + p - 24 ∧ tMiddle + p - 24 < 48 then
      [((mirror (tMiddle + p - 24).toNat : Int), (ffHue : Int), (ffSat : Int), brightness)]
     else []) ++
    (if 0 ≤ tMiddle - p - 24 ∧ tMiddle - p - 24 < 48 then
      [((mirror (tMiddle - p - 24).toNat : Int), (ffHue : Int), (ffSat : Int), brightness)]
     else []))

/-- Writes issued by `LightEngine::renderOpposingWaves`: loop runs for
`0 ≤ p ≤ amp` and the mirrored pair comes from `(numLeds - tMiddle) ± p`. -/
def opposingWaveWrites (numLeds pan ffLedLength ffHue ffSat ffBright : Nat) : List Write :=
  let tMiddle := oceanTMiddle numLeds pan
  let amp := opposingAmp tMiddle ((ffLedLength / 2 : Nat) : Int)
  if amp ≤ 0 then []
  else (List.range (amp.toNat + 1)).flatMap (fun (p : Nat) =>
    let brightness := cdiv ((ffBright : Int) * (amp - p)) amp
    let oppositeIdx1 := (numLeds : Int) - tMiddle + p - 24
    let oppositeIdx2 := (numLeds : Int) - tMiddle - p - 24
    [(tMiddle + p, (ffHue : Int), (ffSat : Int), brightness),
     (tMiddle - p, (ffHue : Int), (ffSat : Int), brightness)] ++
    (if 0 ≤ oppositeIdx1 ∧ oppositeIdx1 < 48 then
      [((mirror oppositeIdx1.toNat : Int), (ffHue : Int), (ffSat : Int), brightness)]
     else []) ++
    (if 0 ≤ oppositeIdx2 ∧ oppositeIdx2 < 48 then
      [((mirror oppositeIdx2.toNat : Int), (ffHue : Int), (ffSat : Int), brightness)]
     else []))

/-- Dispatch of `LightEngine::renderForeground` (no default case: out-of-range
modes issue no writes), over the data members the switch body reads. -/
def foregroundWritesCore (ffMode numLeds ffLedStart ffLedLength lines cAmp pan frameCounter ffHue ffSat ffBright : Nat) (currentNote : List Nat) : List Write :=
  if ffMode = 0 then notesToDrivesWrites currentNote ffHue ffSat ffBright
  else if ffMode = 1 then rainbowWheelWrites numLeds ffHue ffSat ffBright
  else if ffMode = 2 then movingDotsWrites numLeds ffLedStart ffLedLength lines ffHue ffSat ffBright
  else if ffMode = 3 then cometsWrites numLeds ffLedStart ffLedLength lines ffHue ffSat ffBright
  else if ffMode = 4 then backAndForthWrites numLeds ffLedStart ffLedLength ffHue ffSat ffBright
  else if ffMode = 5 then moveStartLEDWrites numLeds ffLedStart ffLedLength lines ffHue ffSat ffBright
  else if ffMode = 6 then colorSinusoidWrites numLeds ffLedStart ffLedLength cAmp ffHue ffSat ffBright
  else if ffMode = 7 then flashWrites numLeds frameCounter ffHue ffSat ffBright
  else if ffMode = 8 then oceanWaveWrites numLeds pan ffLedLength ffHue ffSat ffBright
  else if ffMode = 9 then opposingWaveWrites numLeds pan ffLedLength ffHue ffSat ffBright
  else []

/-- Foreground writes of a state. -/
def foregroundWrites (st : EngineState) : List Write :=
  foregroundWritesCore st.ffMode st.numLeds st.ffLedStart st.ffLedLength st.lines st.cAmp
    st.pan st.frameCounter st.ffHue st.ffSat st.ffBright st.currentNote

/-- One frame of drawing, given the buffer left over from the previous frame:
background fill, copy into the LED buffer, then the foreground writes. -/
def renderFrom (st : EngineState) (prev : Buffer) : Buffer :=
  applyWrites st.numLeds
    (memcpyBg st.numLeds
      (bgFill st.numLeds st.bgMode st.bgLedStart st.bgLedLength st.cAmp st.bgHue st.bgSat st.bgBright)
      prev)
    (foregroundWrites st)

/-- Body of `LightEngine::render`: advance the frame counter, then draw. -/
def render (st : EngineState) (prev : Buffer) : EngineState × Buffer :=
  let st1 := { st with frameCounter := st.frameCounter + 1 }
  (st1, renderFrom st1 prev)

/-- Buffer contents are irrelevant to the claims below; a fixed all-zero
buffer stands in for freshly allocated memory where one is needed. -/
def zeroBuffer : Buffer := fun _ => ⟨0, 0, 0⟩

/-- Calls that mutate engine state, as issued from outside the engine. -/
inductive EngineOp where
  | controlChange (channel control value : Nat)
  | noteOn (channel note velocity : Nat)
  | noteOff (channel note velocity : Nat)
  | setParam (ccNumber value : Nat)
  | renderFrame

/-- State effect of one call (`render` only advances the frame counter). -/
def applyOp (st : EngineState) : EngineOp → EngineState
  | .controlChange ch c v => handleControlChange st ch c v
  | .noteOn ch n v => handleNoteOn st ch n v
  | .noteOff ch n v => handleNoteOff st ch n v
  | .setParam c v => setCC st c v
  | .renderFrame => (render st zeroBuffer).1

/-- A call is well formed when its data bytes are in MIDI range 0..127, as
the interface declares. -/
def opWF : EngineOp → Prop
  | .controlChange _ _ v => v ≤ 127
  | .setParam _ v => v ≤ 127
  | _ => True

instance (op : EngineOp) : Decidable (opWF op) := by
  cases op <;> simp only [opWF] <;> infer_instance

/-- The six HSV fields are each twice a 0..127 value: even and at most 254. -/
def evenInv (st : EngineState) : Prop :=
  st.ffHue % 2 = 0 ∧ st.ffHue ≤ 254 ∧ st.ffSat % 2 = 0 ∧ st.ffSat ≤ 254 ∧
  st.ffBright % 2 = 0 ∧ st.ffBright ≤ 254 ∧ st.bgHue % 2 = 0 ∧ st.bgHue ≤ 254 ∧
  st.bgSat % 2 = 0 ∧ st.bgSat ≤ 254 ∧ st.bgBright % 2 = 0 ∧ st.bgBright ≤ 254

/-- Indices painted by one comet line (the claim speaks of per-line painted
positions). -/
def cometLineIndices (numLeds ffLedStart ffLedLength lines line : Nat) : List Nat :=
  (List.range ffLedLength).map (fun (k : Nat) =>
    (ffLedStart + k + line * (numLeds / lines)) % numLeds)

/-- Hypothesis of the comet claim as stated: two distinct lines never paint
a common position. -/
def cometCrossLineDisjoint (numLeds ffLedStart ffLedLength lines : Nat) : Prop :=
  ∀ l1, l1 < lines → ∀ l2, l2 < lines →
    l1 = l2 ∨ ∀ i ∈ cometLineIndices numLeds ffLedStart ffLedLength lines l1,
      i ∉ cometLineIndices numLeds ffLedStart ffLedLength lines l2

instance (numLeds ffLedStart ffLedLength lines : Nat) :
    Decidable (cometCrossLineDisjoint numLeds ffLedStart ffLedLength lines) := by
  unfold cometCrossLineDisjoint
  infer_instance

/-- Comet state whose single line is longer than the strip (wraps onto its
own trail). -/
def cometWrapState : EngineState :=
  { initEngine 108 with ffMode := 3, lines := 1, ffLedLength := 127 }

/-- Comet state with brightness zero. -/
def cometDarkState : EngineState :=
  { initEngine 108 with ffMode := 3, lines := 1, ffLedLength := 2, ffBright := 0 }

/-- Comet state with two short, disjoint lines (offset 54 apart). -/
def cometDemoState : EngineState :=
  { initEngine 108 with ffMode := 3, lines := 2, ffLedLength := 3 }

theorem cdiv_coe (m n : Nat) : cdiv (m : Int) (n : Int) = ((m / n : Nat) : Int) := rfl

theorem cmod_coe (m n : Nat) : cmod (m : Int) (n : Int) = ((m % n : Nat) : Int) := rfl

theorem toByte_coe (n : Nat) (h : n < 256) : toByte ((n : Nat) : Int) = n := by
  show (((n : Nat) : Int) % 256).toNat = n
  omega

theorem applyWrites_nil (numLeds : Nat) (b : Buffer) : applyWrites numLeds b [] = b := rfl

theorem applyWrites_cons (numLeds : Nat) (b : Buffer) (w : Write) (ws : List Write) :
    applyWrites numLeds b (w :: ws) =
      applyWrites numLeds (setLED numLeds b w.1 w.2.1 w.2.2.1 w.2.2.2) ws := rfl

theorem setLED_out (numLeds : Nat) (b : Buffer) (index h s v : Int) (i : Nat)
    (hi : numLeds ≤ i) : setLED numLeds b index h s v i = b i := by
  unfold setLED
  split_ifs with hg
  · have hne : ¬ ((i : Int) = index) := by omega
    simp [hne]
  · rfl

theorem setLED_ne (numLeds : Nat) (b : Buffer) (index h s v : Int) (i : Nat)
    (hne : index ≠ (i : Int)) : setLED numLeds b index h s v i = b i := by
  unfold setLED
  split_ifs with hg
  · have hne2 : ¬ ((i : Int) = index) := fun e => hne e.symm
    simp [hne2]
  · rfl

theorem setLED_self (numLeds : Nat) (b : Buffer) (h s v : Int) (i : Nat) (hi : i < numLeds) :
    setLED numLeds b ((i : Nat) : Int) h s v i = ⟨toByte h, toByte s, toByte v⟩ := by
  unfold setLED
  rw [if_pos ⟨Int.ofNat_nonneg i, by exact_mod_cast hi⟩]
  simp

theorem applyWrites_out (numLeds : Nat) (ws : List Write) (b : Buffer) (i : Nat)
    (hi : numLeds ≤ i) : applyWrites numLeds b ws i = b i := by
  induction ws generalizing b with
  | nil => rfl
  | cons w tail ih =>
    rw [applyWrites_cons, ih, setLED_out numLeds b w.1 w.2.1 w.2.2.1 w.2.2.2 i hi]

theorem applyWrites_ne (numLeds : Nat) (ws : List Write) (b : Buffer) (i : Nat)
    (hne : ∀ w ∈ ws, w.1 ≠ (i : Int)) : applyWrites numLeds b ws i = b i := by
  induction ws generalizing b with
  | nil => rfl
  | cons w tail ih =>
    rw [applyWrites_cons, ih _ (fun w2 hw2 => hne w2 (List.mem_cons_of_mem _ hw2)),
      setLED_ne numLeds b w.1 w.2.1 w.2.2.1 w.2.2.2 i (hne w (List.mem_cons_self _ _))]

theorem applyWrites_last_value (numLeds i : Nat) (hi : i < numLeds) (c1 c2 c3 : Int) :
    ∀ (ws : List Write) (b : Buffer),
      (∃ w ∈ ws, w.1 = (i : Int)) →
      (∀ w ∈ ws, w.1 = (i : Int) → w.2.1 = c1 ∧ w.2.2.1 = c2 ∧ w.2.2.2 = c3) →
      applyWrites numLeds b ws i = ⟨toByte c1, toByte c2, toByte c3⟩ := by
  intro ws
  induction ws with
  | nil => intro b hex _; simp at hex
  | cons w tail ih =>
    intro b hex hval
    by_cases htail : ∃ w2 ∈ tail, w2.1 = (i : Int)
    · rw [applyWrites_cons]
      exact ih _ htail (fun w2 hw2 => hval w2 (List.mem_cons_of_mem _ hw2))
    · have hw : w.1 = (i : Int) := by
        rcases hex with ⟨w2, hw2, he⟩
        rcases List.mem_cons.mp hw2 with rfl | hmem
        · exact he
        · exact absurd ⟨w2, hmem, he⟩ htail
      obtain ⟨e1, e2, e3⟩ := hval w (List.mem_cons_self _ _) hw
      rw [applyWrites_cons,
        applyWrites_ne numLeds tail _ i (fun w2 hw2 he => htail ⟨w2, hw2, he⟩),
        hw, e1, e2, e3, setLED_self numLeds b c1 c2 c3 i hi]

theorem memcpy_absorb (numLeds : Nat) (bg : Nat → HSV) (prev : Buffer) (ws : List Write) :
    memcpyBg numLeds bg (applyWrites numLeds (memcpyBg numLeds bg prev) ws) =
      memcpyBg numLeds bg prev := by
  funext i
  by_cases hi : i < numLeds
  · simp [memcpyBg, hi]
  · have hnl : numLeds ≤ i := Nat.le_of_not_lt hi
    simp [memcpyBg, hi, applyWrites_out numLeds ws _ i hnl]

theorem fgCore_fc (m nl s0 l0 ln ca pn fc1 fc2 hu sa br : Nat) (cn : List Nat) (h : m ≠ 7) :
    foregroundWritesCore m nl s0 l0 ln ca pn fc1 hu sa br cn =
    foregroundWritesCore m nl s0 l0 ln ca pn fc2 hu sa br cn := by
  rcases m with _|_|_|_|_|_|_|_|_|_|m
  · exact (rfl : notesToDrivesWrites cn hu sa br = notesToDrivesWrites cn hu sa br)
  · exact (rfl : rainbowWheelWrites nl hu sa br = rainbowWheelWrites nl hu sa br)
  · exact (rfl : movingDotsWrites nl s0 l0 ln hu sa br = movingDotsWrites nl s0 l0 ln hu sa br)
  · exact (rfl : cometsWrites nl s0 l0 ln hu sa br = cometsWrites nl s0 l0 ln hu sa br)
  · exact (rfl : backAndForthWrites nl s0 l0 hu sa br = backAndForthWrites nl s0 l0 hu sa br)
  · exact (rfl : moveStartLEDWrites nl s0 l0 ln hu sa br = moveStartLEDWrites nl s0 l0 ln hu sa br)
  · exact (rfl : colorSinusoidWrites nl s0 l0 ca hu sa br = colorSinusoidWrites nl s0 l0 ca hu sa br)
  · omega
  · exact (rfl : oceanWaveWrites nl pn l0 hu sa br = oceanWaveWrites nl pn l0 hu sa br)
  · exact (rfl : opposingWaveWrites nl pn l0 hu sa br = opposingWaveWrites nl pn l0 hu sa br)
  · exact (rfl : ([] : List Write) = [])

theorem fgCore_notes (m nl s0 l0 ln ca pn fc hu sa br : Nat) (cn1 cn2 : List Nat) (h : m ≠ 0) :
    foregroundWritesCore m nl s0 l0 ln ca pn fc hu sa br cn1 =
    foregroundWritesCore m nl s0 l0 ln ca pn fc hu sa br cn2 := by
  rcases m with _|_|_|_|_|_|_|_|_|_|m
  · omega
  · exact (rfl : rainbowWheelWrites nl hu sa br = rainbowWheelWrites nl hu sa br)
  · exact (rfl : movingDotsWrites nl s0 l0 ln hu sa br = movingDotsWrites nl s0 l0 ln hu sa br)
  · exact (rfl : cometsWrites nl s0 l0 ln hu sa br = cometsWrites nl s0 l0 ln hu sa br)
  · exact (rfl : backAndForthWrites nl s0 l0 hu sa br = backAndForthWrites nl s0 l0 hu sa br)
  · exact (rfl : moveStartLEDWrites nl s0 l0 ln hu sa br = moveStartLEDWrites nl s0 l0 ln hu sa br)
  · exact (rfl : colorSinusoidWrites nl s0 l0 ca hu sa br = colorSinusoidWrites nl s0 l0 ca hu sa br)
  · exact (rfl : flashWrites nl fc hu sa br = flashWrites nl fc hu sa br)
  · exact (rfl : oceanWaveWrites nl pn l0 hu sa br = oceanWaveWrites nl pn l0 hu sa br)
  · exact (rfl : opposingWaveWrites nl pn l0 hu sa br = opposingWaveWrites nl pn l0 hu sa br)
  · exact (rfl : ([] : List Write) = [])

theorem foregroundWrites_fc (st : EngineState) (c : Nat) (h : st.ffMode ≠ 7) :
    foregroundWrites { st with frameCounter := c } = foregroundWrites st := by
  unfold foregroundWrites
  dsimp only
  exact fgCore_fc st.ffMode st.numLeds st.ffLedStart st.ffLedLength st.lines st.cAmp
    st.pan c st.frameCounter st.ffHue st.ffSat st.ffBright st.currentNote h

theorem foregroundWrites_notes (st : EngineState) (A N : List Nat) (h : st.ffMode ≠ 0) :
    foregroundWrites { st with activeNotes := A, currentNote := N } = foregroundWrites st := by
  unfold foregroundWrites
  dsimp only
  exact fgCore_notes st.ffMode st.numLeds st.ffLedStart st.ffLedLength st.lines st.cAmp
    st.pan st.frameCounter st.ffHue st.ffSat st.ffBright N st.currentNote h

theorem renderFrom_frameCounter (st : EngineState) (c : Nat) (b : Buffer) (h : st.ffMode ≠ 7) :
    renderFrom { st with frameCounter := c } b = renderFrom st b := by
  unfold renderFrom
  rw [foregroundWrites_fc st c h]

theorem renderFrom_notes (st : EngineState) (A N : List Nat) (b : Buffer) (h : st.ffMode ≠ 0) :
    renderFrom { st with activeNotes := A, currentNote := N } b = renderFrom st b := by
  unfold renderFrom
  rw [foregroundWrites_notes st A N h]

theorem renderFrom_double (st : EngineState) (prev : Buffer) :
    renderFrom st (renderFrom st prev) = renderFrom st prev := by
  unfold renderFrom
  rw [memcpy_absorb]

/-- C10: every LED write of every mode goes through the bounds-guarded
`setLED` (or the background full fill of length `numLeds`), so `render` never
modifies a buffer position at or beyond `numLeds`, for every engine state and
every `numLeds ≥ 1`; in the embedding `render` is a total function, so no
access faults are possible. -/
theorem render_bounds_guard (st : EngineState) (prev : Buffer) (i : Nat)
    (hleds : 1 ≤ st.numLeds) (hi : st.numLeds ≤ i) :
    (render st prev).2 i = prev i := by
  show renderFrom { st with frameCounter := st.frameCounter + 1 } prev i = prev i
  unfold renderFrom
  dsimp only
  rw [applyWrites_out st.numLeds _ _ i hi]
  unfold memcpyBg
  rw [if_neg (by omega)]

theorem render_bounds_guard_witness :
    1 ≤ (initEngine 108).numLeds ∧ (render (initEngine 108) zeroBuffer).2 200 = zeroBuffer 200 :=
  ⟨by decide, render_bounds_guard (initEngine 108) zeroBuffer 200 (by decide) (by decide)⟩

/-- C8: an out-of-range `bgMode` (≥ 3) makes the background pass produce
exactly the flat fill, and an out-of-range `ffMode` (≥ 10) makes the
foreground pass write nothing, so the rendered buffer is exactly the copied
background; both functions are total, no error is signalled. -/
theorem out_of_range_mode_fallback (st : EngineState) (prev : Buffer) :
    (3 ≤ st.bgMode →
      bgFill st.numLeds st.bgMode st.bgLedStart st.bgLedLength st.cAmp st.bgHue st.bgSat st.bgBright =
        renderFlatBackground st.bgHue st.bgSat st.bgBright) ∧
    (10 ≤ st.ffMode →
      (render st prev).2 =
        memcpyBg st.numLeds
          (bgFill st.numLeds st.bgMode st.bgLedStart st.bgLedLength st.cAmp st.bgHue st.bgSat st.bgBright)
          prev) := by
  constructor
  · intro h
    have h0 : ¬ (st.bgMode = 0) := by omega
    have h1 : ¬ (st.bgMode = 1) := by omega
    have h2 : ¬ (st.bgMode = 2) := by omega
    unfold bgFill
    rw [if_neg h0, if_neg h1, if_neg h2]
  · intro h
    show renderFrom { st with frameCounter := st.frameCounter + 1 } prev = _
    unfold renderFrom foregroundWrites foregroundWritesCore
    dsimp only
    have h0 : ¬ (st.ffMode = 0) := by omega
    have h1 : ¬ (st.ffMode = 1) := by omega
    have h2 : ¬ (st.ffMode = 2) := by omega
    have h3 : ¬ (st.ffMode = 3) := by omega
    have h4 : ¬ (st.ffMode = 4) := by omega
    have h5 : ¬ (st.ffMode = 5) := by omega
    have h6 : ¬ (st.ffMode = 6) := by omega
    have h7 : ¬ (st.ffMode = 7) := by omega
    have h8 : ¬ (st.ffMode = 8) := by omega
    have h9 : ¬ (st.ffMode = 9) := by omega
    rw [if_neg h0, if_neg h1, if_neg h2, if_neg h3, if_neg h4, if_neg h5, if_neg h6, if_neg h7,
      if_neg h8, if_neg h9]
    exact applyWrites_nil _ _

theorem out_of_range_mode_fallback_witness :
    (bgFill 108 7 0 0 0 10 20 30 = renderFlatBackground 10 20 30) ∧
    (render { initEngine 108 with bgMode := 7, ffMode := 12 } zeroBuffer).2 =
      memcpyBg 108 (bgFill 108 7 0 0 0 0 200 0) zeroBuffer :=
  ⟨(out_of_range_mode_fallback { initEngine 108 with bgMode := 7, bgHue := 10, bgSat := 20, bgBright := 30 } zeroBuffer).1 (by decide),
   (out_of_range_mode_fallback { initEngine 108 with bgMode := 7, ffMode := 12 } zeroBuffer).2 (by decide)⟩

/-- C5: for every CC number 1..15 and value 0..127, `setCC` then `getCC`
round-trips exactly, and `setCC` is literally `handleControlChange` on
channel 0. -/
theorem setCC_getCC_roundtrip (st : EngineState) (cc v : Nat)
    (h1 : 1 ≤ cc) (h2 : cc ≤ 15) (hv : v ≤ 127) :
    getCC (setCC st cc v) cc = v ∧ setCC st cc v = handleControlChange st 0 cc v := by
  refine ⟨?_, rfl⟩
  interval_cases cc <;> simp [getCC, setCC, handleControlChange] <;> omega

theorem setCC_getCC_roundtrip_witness :
    getCC (setCC (initEngine 108) 3 100) 3 = 100 ∧
      setCC (initEngine 108) 3 100 = handleControlChange (initEngine 108) 0 3 100 :=
  setCC_getCC_roundtrip (initEngine 108) 3 100 (by decide) (by decide) (by decide)

/-- C6: `handleControlChange` updates exactly the one field mapped to the CC
number (doubling the value for CC 1, 2, 3, 11, 12, 13 and storing it raw
otherwise, every other field unchanged), and is a no-op for CC 0 or above
15, on every channel. -/
theorem handleControlChange_field_map (st : EngineState) (channel control value : Nat)
    (hv : value ≤ 127) :
    (control = 1 → handleControlChange st channel control value = { st with ffHue := value * 2 }) ∧
    (control = 2 → handleControlChange st channel control value = { st with ffSat := value * 2 }) ∧
    (control = 3 → handleControlChange st channel control value = { st with ffBright := value * 2 }) ∧
    (control = 4 → handleControlChange st channel control value = { st with ffLedStart := value }) ∧
    (control = 5 → handleControlChange st channel control value = { st with ffLedLength := value }) ∧
    (control = 6 → handleControlChange st channel control value = { st with ffMode := value }) ∧
    (control = 7 → handleControlChange st channel control value = { st with lines := value }) ∧
    (control = 8 → handleControlChange st channel control value = { st with cAmp := value }) ∧
    (control = 9 → handleControlChange st channel control value = { st with bgMode := value }) ∧
    (control = 10 → handleControlChange st channel control value = { st with pan := value }) ∧
    (control = 11 → handleControlChange st channel control value = { st with bgHue := value * 2 }) ∧
    (control = 12 → handleControlChange st channel control value = { st with bgSat := value * 2 }) ∧
    (control = 13 → handleControlChange st channel control value = { st with bgBright := value * 2 }) ∧
    (control = 14 → handleControlChange st channel control value = { st with bgLedStart := value }) ∧
    (control = 15 → handleControlChange st channel control value = { st with bgLedLength := value }) ∧
    (control = 0 ∨ 16 ≤ control → handleControlChange st channel control value = st) := by
  refine ⟨?_, ?_, ?_, ?_, ?_, ?_, ?_, ?_, ?_, ?_, ?_, ?_, ?_, ?_, ?_, ?_⟩
  · intro h; subst h; rfl
  · intro h; subst h; rfl
  · intro h; subst h; rfl
  · intro h; subst h; rfl
  · intro h; subst h; rfl
  · intro h; subst h; rfl
  · intro h; subst h; rfl
  · intro h; subst h; rfl
  · intro h; subst h; rfl
  · intro h; subst h; rfl
  · intro h; subst h; rfl
  · intro h; subst h; rfl
  · intro h; subst h; rfl
  · intro h; subst h; rfl
  · intro h; subst h; rfl
  · intro h
    rcases h with h | h
    · subst h; rfl
    · unfold handleControlChange
      have n1 : ¬ (control = 1) := by omega
      have n2 : ¬ (control = 2) := by omega
      have n3 : ¬ (control = 3) := by omega
      have n4 : ¬ (control = 4) := by omega
      have n5 : ¬ (control = 5) := by omega
      have n6 : ¬ (control = 6) := by omega
      have n7 : ¬ (control = 7) := by omega
      have n8 : ¬ (control = 8) := by omega
      have n9 : ¬ (control = 9) := by omega
      have n10 : ¬ (control = 10) := by omega
      have n11 : ¬ (control = 11) := by omega
      have n12 : ¬ (control = 12) := by omega
      have n13 : ¬ (control = 13) := by omega
      have n14 : ¬ (control = 14) := by omega
      have n15 : ¬ (control = 15) := by omega
      rw [if_neg n1, if_neg n2, if_neg n3, if_neg n4, if_neg n5, if_neg n6, if_neg n7, if_neg n8,
        if_neg n9, if_neg n10, if_neg n11, if_neg n12, if_neg n13, if_neg n14, if_neg n15]

theorem handleControlChange_field_map_witness :
    handleControlChange (initEngine 108) 3 7 99 = { initEngine 108 with lines := 99 } ∧
      handleControlChange (initEngine 108) 3 20 99 = initEngine 108 :=
  ⟨(handleControlChange_field_map (initEngine 108) 3 7 99 (by decide)).2.2.2.2.2.2.1 rfl,
   (handleControlChange_field_map (initEngine 108) 3 20 99 (by decide)).2.2.2.2.2.2.2.2.2.2.2.2.2.2.2
     (Or.inr (by decide))⟩

/-- C7: whenever `ffMode = 5`, every note-on advances `ffLedStart` by one and
resets it to 0 as soon as it would reach 127, on every channel, note and
velocity; in particular 126 steps to 0, not 127. -/
theorem move_start_on_note_wraps (st : EngineState) (channel note velocity : Nat)
    (h : st.ffMode = 5) :
    (handleNoteOn st channel note velocity).ffLedStart =
      if 127 ≤ st.ffLedStart + 1 then 0 else st.ffLedStart + 1 := by
  unfold handleNoteOn
  by_cases hn : note < 128 <;> by_cases hc : 1 ≤ channel ∧ channel ≤ 16 <;>
    simp [hn, hc, h]

theorem move_start_on_note_wraps_witness :
    (handleNoteOn { initEngine 108 with ffMode := 5, ffLedStart := 126 } 1 36 100).ffLedStart = 0 :=
  (move_start_on_note_wraps { initEngine 108 with ffMode := 5, ffLedStart := 126 } 1 36 100
    rfl).trans (by decide)

/-- C4: with any foreground mode other than Flash (7), two consecutive
`render` calls with no intervening MIDI event or `setCC` produce identical
buffers (the frame counter advance does not leak into the output); in Flash
mode the buffer is a pure function of the frame counter and the CC
parameters — note state does not influence it, so equal counters give equal
buffers. -/
theorem render_idempotent (st : EngineState) (prev : Buffer) (A N : List Nat) :
    (st.ffMode ≠ 7 → (render (render st prev).1 (render st prev).2).2 = (render st prev).2) ∧
    (st.ffMode = 7 →
      (render { st with activeNotes := A, currentNote := N } prev).2 = (render st prev).2) := by
  constructor
  · intro h
    exact (renderFrom_frameCounter { st with frameCounter := st.frameCounter + 1 }
        (st.frameCounter + 1 + 1)
        (renderFrom { st with frameCounter := st.frameCounter + 1 } prev) h).trans
      (renderFrom_double { st with frameCounter := st.frameCounter + 1 } prev)
  · intro h7
    exact renderFrom_notes { st with frameCounter := st.frameCounter + 1 } A N prev
      (by intro h0; simp [h7] at h0)

theorem render_idempotent_witness :
    ((initEngine 108).ffMode ≠ 7 ∧
      (render (render (initEngine 108) zeroBuffer).1 (render (initEngine 108) zeroBuffer).2).2 =
        (render (initEngine 108) zeroBuffer).2) ∧
    (render { { initEngine 108 with ffMode := 7 } with
        activeNotes := List.replicate 128 1, currentNote := List.replicate 17 2 } zeroBuffer).2 =
      (render { initEngine 108 with ffMode := 7 } zeroBuffer).2 :=
  ⟨⟨by decide, (render_idempotent (initEngine 108) zeroBuffer [] []).1 (by decide)⟩,
   (render_idempotent { initEngine 108 with ffMode := 7 } zeroBuffer
      (List.replicate 128 1) (List.replicate 17 2)).2 rfl⟩

theorem evenInv_hcc (st : EngineState) (ch c v : Nat) (hv : v ≤ 127) (h : evenInv st) :
    evenInv (handleControlChange st ch c v) := by
  unfold evenInv at h
  rcases c with _|_|_|_|_|_|_|_|_|_|_|_|_|_|_|_|c
  · exact h
  · show evenInv { st with ffHue := v * 2 }
    unfold evenInv; dsimp only; omega
  · show evenInv { st with ffSat := v * 2 }
    unfold evenInv; dsimp only; omega
  · show evenInv { st with ffBright := v * 2 }
    unfold evenInv; dsimp only; omega
  · show evenInv { st with ffLedStart := v }
    unfold evenInv; dsimp only; omega
  · show evenInv { st with ffLedLength := v }
    unfold evenInv; dsimp only; omega
  · show evenInv { st with ffMode := v }
    unfold evenInv; dsimp only; omega
  · show evenInv { st with lines := v }
    unfold evenInv; dsimp only; omega
  · show evenInv { st with cAmp := v }
    unfold evenInv; dsimp only; omega
  · show evenInv { st with bgMode := v }
    unfold evenInv; dsimp only; omega
  · show evenInv { st with pan := v }
    unfold evenInv; dsimp only; omega
  · show evenInv { st with bgHue := v * 2 }
    unfold evenInv; dsimp only; omega
  · show evenInv { st with bgSat := v * 2 }
    unfold evenInv; dsimp only; omega
  · show evenInv { st with bgBright := v * 2 }
    unfold evenInv; dsimp only; omega
  · show evenInv { st with bgLedStart := v }
    unfold evenInv; dsimp only; omega
  · show evenInv { st with bgLedLength := v }
    unfold evenInv; dsimp only; omega
  · exact h

theorem handleNoteOn_hsv (st : EngineState) (ch n v : Nat) :
    (handleNoteOn st ch n v).ffHue = st.ffHue ∧ (handleNoteOn st ch n v).ffSat = st.ffSat ∧
    (handleNoteOn st ch n v).ffBright = st.ffBright ∧ (handleNoteOn st ch n v).bgHue = st.bgHue ∧
    (handleNoteOn st ch n v).bgSat = st.bgSat ∧ (handleNoteOn st ch n v).bgBright = st.bgBright := by
  unfold handleNoteOn
  by_cases hn : n < 128 <;> by_cases hc : 1 ≤ ch ∧ ch ≤ 16 <;> simp [hn, hc] <;>
    split_ifs <;> simp

theorem handleNoteOff_hsv (st : EngineState) (ch n v : Nat) :
    (handleNoteOff st ch n v).ffHue = st.ffHue ∧ (handleNoteOff st ch n v).ffSat = st.ffSat ∧
    (handleNoteOff st ch n v).ffBright = st.ffBright ∧ (handleNoteOff st ch n v).bgHue = st.bgHue ∧
    (handleNoteOff st ch n v).bgSat = st.bgSat ∧ (handleNoteOff st ch n v).bgBright = st.bgBright := by
  unfold handleNoteOff
  by_cases hn : n < 128 <;> by_cases hc : 1 ≤ ch ∧ ch ≤ 16 <;> simp [hn, hc] <;>
    split_ifs <;> simp

theorem evenInv_applyOp (st : EngineState) (op : EngineOp) (hwf : opWF op) (h : evenInv st) :
    evenInv (applyOp st op) := by
  cases op with
  | controlChange ch c v => exact evenInv_hcc st ch c v hwf h
  | noteOn ch n v =>
    obtain ⟨e1, e2, e3, e4, e5, e6⟩ := handleNoteOn_hsv st ch n v
    show evenInv (handleNoteOn st ch n v)
    unfold evenInv at h ⊢
    rw [e1, e2, e3, e4, e5, e6]
    exact h
  | noteOff ch n v =>
    obtain ⟨e1, e2, e3, e4, e5, e6⟩ := handleNoteOff_hsv st ch n v
    show evenInv (handleNoteOff st ch n v)
    unfold evenInv at h ⊢
    rw [e1, e2, e3, e4, e5, e6]
    exact h
  | setParam c v => exact evenInv_hcc st 0 c v hwf h
  | renderFrame =>
    show evenInv { st with frameCounter := st.frameCounter + 1 }
    unfold evenInv at h ⊢
    dsimp only
    exact h

theorem evenInv_foldl (ops : List EngineOp) :
    ∀ st : EngineState, (∀ op ∈ ops, opWF op) → evenInv st →
      evenInv (ops.foldl applyOp st) := by
  induction ops with
  | nil => intro st _ h; exact h
  | cons op tail ih =>
    intro st hwf h
    rw [List.foldl_cons]
    exact ih _ (fun o ho => hwf o (List.mem_cons_of_mem _ ho))
      (evenInv_applyOp st op (hwf op (List.mem_cons_self _ _)) h)

/-- C9: in the freshly constructed state and after any sequence of
well-formed `handleControlChange`, `handleNoteOn`, `handleNoteOff`, `setCC`
and `render` calls, the six fields `ffHue`, `ffSat`, `ffBright`, `bgHue`,
`bgSat`, `bgBright` are always even and equal to twice a 0..127 value. -/
theorem hsv_evenness_invariant (numLeds : Nat) (ops : List EngineOp)
    (hwf : ∀ op ∈ ops, opWF op) :
    evenInv (initEngine numLeds) ∧ evenInv (ops.foldl applyOp (initEngine numLeds)) := by
  have hinit : evenInv (initEngine numLeds) := by
    unfold evenInv initEngine
    dsimp only
    omega
  exact ⟨hinit, evenInv_foldl ops (initEngine numLeds) hwf hinit⟩

theorem hsv_evenness_invariant_witness :
    evenInv (initEngine 108) ∧
      evenInv ([EngineOp.controlChange 0 1 60, EngineOp.noteOn 1 36 100,
        EngineOp.renderFrame, EngineOp.setParam 13 127].foldl applyOp (initEngine 108)) :=
  hsv_evenness_invariant 108
    [EngineOp.controlChange 0 1 60, EngineOp.noteOn 1 36 100,
     EngineOp.renderFrame, EngineOp.setParam 13 127] (by decide)

/-- C2 counterexample: the claim says the mirror image of a source index in
[0,24) falls in [72,95]; in the table, index 0 maps to 23, which does not. -/
theorem mirror_map_counterexample :
    mirror 0 = 23 ∧ ¬ (72 ≤ mirror 0 ∧ mirror 0 ≤ 95) := by decide

/-- C2 amended: the first 24 table entries map [0,24) onto itself reversed
(j ↦ 23 − j), so on that half the map is an involution; the entries for
[24,48) map to [72,95] (j ↦ 119 − j), outside the 48-entry index domain, so
composing the table with itself is undefined there and the involution holds
only as the pairing of LED index 24 + j with its table image. -/
theorem mirror_map_amended :
    (∀ j, j < 24 → mirror (mirror j) = j ∧ mirror j < 24) ∧
    (∀ j, 24 ≤ j → j < 48 → 72 ≤ mirror j ∧ mirror j ≤ 95) := by decide

theorem mirror_map_amended_witness :
    (mirror (mirror 5) = 5 ∧ mirror 5 < 24) ∧ (72 ≤ mirror 30 ∧ mirror 30 ≤ 95) :=
  ⟨mirror_map_amended.1 5 (by decide), mirror_map_amended.2 30 (by decide) (by decide)⟩

set_option maxRecDepth 8000 in
/-- C1 counterexample: at `pan = 127`, `ffLedLength = 127` (both in the
claimed 0..127 domain) the center is 80 and the lower clamp branch leaves a
positive amplitude 56, so offset `p = 0` paints top index 80 > 71; the LED 80
cell of the rendered buffer is indeed written (brightness not the background
0). -/
theorem ocean_waves_band_counterexample :
    (0 : Int) < oceanAmp (oceanTMiddle 108 127) ((127 / 2 : Nat) : Int) ∧
    71 < oceanTMiddle 108 127 + ((0 : Nat) : Int) ∧
    ((render { initEngine 108 with ffMode := 8, pan := 127, ffLedLength := 127 }
        zeroBuffer).2 80).v ≠ 0 := by decide

/-- C1 amended: the [24,71] band containment holds on the restricted pan
domain 0..52, where `tMiddle ≤ 48`: there every painted offset `tMiddle ± p`
with `0 ≤ p <` clamped amplitude stays within [24,71], for every
`ffLedLength` in 0..127.  (For `pan ≥ 53` with a length large enough to
trigger the lower clamp branch, indices up to `2·tMiddle − 25 > 71` are
painted, as the counterexample shows.) -/
theorem ocean_waves_band_amended (pan L p : Nat)
    (hpan : pan ≤ 52) (hL : L ≤ 127)
    (hp : (p : Int) < oceanAmp (oceanTMiddle 108 pan) ((L / 2 : Nat) : Int)) :
    24 ≤ oceanTMiddle 108 pan + p ∧ oceanTMiddle 108 pan + p ≤ 71 ∧
    24 ≤ oceanTMiddle 108 pan - p ∧ oceanTMiddle 108 pan - p ≤ 71 := by
  have hbound : (27 : Int) ≤ oceanTMiddle 108 pan ∧ oceanTMiddle 108 pan ≤ 48 := by
    interval_cases pan <;> decide
  unfold oceanAmp at hp
  split_ifs at hp <;> omega

theorem ocean_waves_band_amended_witness :
    24 ≤ oceanTMiddle 108 52 + ((0 : Nat) : Int) ∧
      oceanTMiddle 108 52 + ((0 : Nat) : Int) ≤ 71 ∧
      24 ≤ oceanTMiddle 108 52 - ((0 : Nat) : Int) ∧
      oceanTMiddle 108 52 - ((0 : Nat) : Int) ≤ 71 :=
  ocean_waves_band_amended 52 127 0 (by decide) (by decide) (by decide)

set_option maxRecDepth 8000 in
/-- C3 counterexample, two instances that satisfy the claim's hypotheses
(`lines = 1`, so cross-line overlap is vacuous) yet break its conclusion:
with `ffLedLength = 127 > numLeds` a line wraps onto its own trail, so the
trailing LED renders at `200·109/127 = 171`, not `ffBright·1/L = 1`; and with
`ffBright = 0`, `L = 2` the trailing and leading brightness are both 0, so
the strict inequality fails. -/
theorem comets_trailing_counterexample :
    (cometCrossLineDisjoint 108 0 127 1 ∧
      ((render cometWrapState zeroBuffer).2 0).v ≠ 200 * 1 / 127) ∧
    (cometCrossLineDisjoint 108 0 2 1 ∧
      1 < 2 ∧ 0 < 2 ∧
      ¬ (((render cometDarkState zeroBuffer).2 0).v <
         ((render cometDarkState zeroBuffer).2 1).v)) := by decide

/-- C3 amended: for every state in comets mode with `lines ≥ 1`,
`ffLedLength = L ≥ 1`, `numLeds ≥ 1`, `ffBright ≤ 254` (its data-model
range), whose painted positions are pairwise distinct both within a line and
across lines, the rendered brightness at the trailing LED of the first comet
is `ffBright * 1 / L`, the leading LED renders at `ffBright`, and when
`L > 1` and `ffBright > 0` the trailing brightness is strictly below the
leading one.  (With `ffBright = 0` the two are equal, and a line longer than
the strip overwrites its own trail, as the counterexample shows.) -/
theorem comets_trailing_amended (st : EngineState) (prev : Buffer)
    (hmode : st.ffMode = 3) (hnl : 0 < st.numLeds) (hlines : 1 ≤ st.lines)
    (hlen : 1 ≤ st.ffLedLength) (hbr : st.ffBright ≤ 254)
    (hnodup : ((cometsWrites st.numLeds st.ffLedStart st.ffLedLength st.lines st.ffHue st.ffSat
        st.ffBright).map Prod.fst).Nodup) :
    ((render st prev).2 (st.ffLedStart % st.numLeds)).v = st.ffBright * 1 / st.ffLedLength ∧
    ((render st prev).2 ((st.ffLedStart + st.ffLedLength - 1) % st.numLeds)).v = st.ffBright ∧
    (1 < st.ffLedLength → 0 < st.ffBright →
      ((render st prev).2 (st.ffLedStart % st.numLeds)).v <
        ((render st prev).2 ((st.ffLedStart + st.ffLedLength - 1) % st.numLeds)).v) := by
  have hB : (render st prev).2 =
      applyWrites st.numLeds
        (memcpyBg st.numLeds
          (bgFill st.numLeds st.bgMode st.bgLedStart st.bgLedLength st.cAmp st.bgHue st.bgSat
            st.bgBright) prev)
        (cometsWrites st.numLeds st.ffLedStart st.ffLedLength st.lines st.ffHue st.ffSat
          st.ffBright) := by
    show renderFrom { st with frameCounter := st.frameCounter + 1 } prev = _
    unfold renderFrom foregroundWrites foregroundWritesCore
    dsimp only
    rw [hmode]
    norm_num
  have hmem : ∀ k, k < st.ffLedLength →
      ((((st.ffLedStart + k + 0 * (st.numLeds / st.lines)) % st.numLeds : Nat) : Int),
        (st.ffHue : Int), (st.ffSat : Int),
        ((st.ffBright * (k + 1) / st.ffLedLength : Nat) : Int)) ∈
        cometsWrites st.numLeds st.ffLedStart st.ffLedLength st.lines st.ffHue st.ffSat
          st.ffBright := by
    intro k hk
    unfold cometsWrites
    rw [if_neg (by omega)]
    simp only [List.mem_flatMap, List.mem_map, List.mem_range]
    exact ⟨0, by omega, k, hk, rfl⟩
  have hinj : ∀ w ∈ cometsWrites st.numLeds st.ffLedStart st.ffLedLength st.lines st.ffHue
        st.ffSat st.ffBright,
      ∀ w2 ∈ cometsWrites st.numLeds st.ffLedStart st.ffLedLength st.lines st.ffHue
        st.ffSat st.ffBright, w.1 = w2.1 → w = w2 := by
    have hpw := List.pairwise_map.mp hnodup
    intro w hw w2 hw2 he
    by_contra hne
    exact hpw.forall (by intro a b hab e; exact hab e.symm) hw hw2 hne he
  have e0 : st.ffLedStart + 0 + 0 * (st.numLeds / st.lines) = st.ffLedStart := by omega
  have w0mem := hmem 0 (by omega)
  rw [e0] at w0mem
  have hlt0 : st.ffLedStart % st.numLeds < st.numLeds := Nat.mod_lt _ hnl
  have t1 : applyWrites st.numLeds
      (memcpyBg st.numLeds
        (bgFill st.numLeds st.bgMode st.bgLedStart st.bgLedLength st.cAmp st.bgHue st.bgSat
          st.bgBright) prev)
      (cometsWrites st.numLeds st.ffLedStart st.ffLedLength st.lines st.ffHue st.ffSat
        st.ffBright) (st.ffLedStart % st.numLeds) =
      ⟨toByte (st.ffHue : Int), toByte (st.ffSat : Int),
        toByte ((st.ffBright * 1 / st.ffLedLength : Nat) : Int)⟩ := by
    apply applyWrites_last_value st.numLeds (st.ffLedStart % st.numLeds) hlt0
    · exact ⟨_, w0mem, rfl⟩
    · intro w hw he
      have hw0 := hinj w hw _ w0mem he
      rw [hw0]
      exact ⟨rfl, rfl, rfl⟩
  have eL : st.ffLedStart + (st.ffLedLength - 1) + 0 * (st.numLeds / st.lines) =
      st.ffLedStart + st.ffLedLength - 1 := by omega
  have eL1 : st.ffLedLength - 1 + 1 = st.ffLedLength := by omega
  have wLmem := hmem (st.ffLedLength - 1) (by omega)
  rw [eL, eL1, Nat.mul_div_cancel _ (by omega : 0 < st.ffLedLength)] at wLmem
  have hltL : (st.ffLedStart + st.ffLedLength - 1) % st.numLeds < st.numLeds :=
    Nat.mod_lt _ hnl
  have t2 : applyWrites st.numLeds
      (memcpyBg st.numLeds
        (bgFill st.numLeds st.bgMode st.bgLedStart st.bgLedLength st.cAmp st.bgHue st.bgSat
          st.bgBright) prev)
      (cometsWrites st.numLeds st.ffLedStart st.ffLedLength st.lines st.ffHue st.ffSat
        st.ffBright) ((st.ffLedStart + st.ffLedLength - 1) % st.numLeds) =
      ⟨toByte (st.ffHue : Int), toByte (st.ffSat : Int),
        toByte ((st.ffBright : Nat) : Int)⟩ := by
    apply applyWrites_last_value st.numLeds ((st.ffLedStart + st.ffLedLength - 1) % st.numLeds)
      hltL
    · exact ⟨_, wLmem, rfl⟩
    · intro w hw he
      have hwL := hinj w hw _ wLmem he
      rw [hwL]
      exact ⟨rfl, rfl, rfl⟩
  have hv1 : st.ffBright * 1 / st.ffLedLength < 256 := by
    have := Nat.div_le_self (st.ffBright * 1) st.ffLedLength
    omega
  rw [hB, t1, t2]
  dsimp only
  rw [toByte_coe _ hv1, toByte_coe _ (by omega)]
  refine ⟨rfl, rfl, ?_⟩
  intro hL1 hbr1
  rw [Nat.mul_one]
  exact Nat.div_lt_self hbr1 hL1

theorem comets_trailing_amended_witness :
    ((render cometDemoState zeroBuffer).2 0).v = 66 ∧
    ((render cometDemoState zeroBuffer).2 2).v = 200 ∧
    ((render cometDemoState zeroBuffer).2 0).v < ((render cometDemoState zeroBuffer).2 2).v := by
  have h := comets_trailing_amended cometDemoState zeroBuffer rfl (by decide) (by decide)
    (by decide) (by decide) (by decide)
  exact ⟨h.1, h.2.1, h.2.2 (by decide) (by decide)⟩
